import Mathlib

/-!
Verification of the session/authentication core of the zotion repository.

The definitions below are a shallow embedding of the Go source:
  - `pkg/api/controller/auth_controller.go` (Login, Logout, Register,
    ValidateSession handlers),
  - `internal/migration/files/20250509083727_session.go` (session table
    migration),
  - the user repository (`GetById`, `GetAllUsers`, ...).
Time is modelled as seconds (`Nat`); the session store as a `List Session`;
HTTP responses as a status code plus a symbolic body.  Collaborators whose
source is not part of the repository snapshot (the session repository, the
token utilities) are modelled from the specification and marked as such in
their doc comments.
-/

namespace Zotion

/-- `models.Session` as persisted in the `session` table: id, user_id,
user_agent, ip_address, expires_at, created_at, updated_at.  Timestamps are
seconds since an arbitrary epoch. -/
structure Session where
  id : String
  userId : String
  userAgent : String
  ipAddress : String
  expiresAt : Nat
  createdAt : Nat
  updatedAt : Nat
  deriving DecidableEq, Repr

/-- The JSON body of a handler response, kept symbolic: an error object
`{"error": msg}`, a message object `{"message": msg}`, the `{"valid": true}`
object, or a `models.LoginResponse` payload. -/
inductive RespBody where
  | errorMsg (msg : String)
  | message (msg : String)
  | validTrue
  | loginResp (userId sessionId token : String)
  deriving DecidableEq, Repr

/-- A fiber response: HTTP status code plus body. -/
structure HttpResponse where
  status : Nat
  body : RespBody
  deriving DecidableEq, Repr

/-- `models.LoginRequest`: email/username identifier and password. -/
structure LoginRequest where
  email : String
  password : String
  deriving DecidableEq, Repr

/-- `models.LoginResponse` as returned by `AuthService.Login`: the user id,
the freshly generated session id and the signed token. -/
structure LoginResponse where
  userId : String
  sessionId : String
  token : String
  deriving DecidableEq, Repr

/-- `models.RegisterRequest`: email, username, password. -/
structure RegisterRequest where
  email : String
  username : String
  password : String
  deriving DecidableEq, Repr

/-- Modelled from the spec: `internal/tokenutil.IsSessionExpired` is not under
the source snapshot; spec §4.4 says validation fails with `Expired` if
`now >= session.expires_at`. -/
def IsSessionExpired (now expiresAt : Nat) : Bool :=
  expiresAt ≤ now

/-- Modelled from the spec: `SessionService.GetById` / the session repository
is not under the source snapshot; spec §4.3 says `GetById(id)` fails with
`NotFound` if absent and does not itself filter by expiration.  Modelled as a
lookup by primary key in the store. -/
def sessionGetById (store : List Session) (id : String) : Option Session :=
  store.find? (fun s => s.id = id)

/-- Modelled from the spec: `SessionService.Create` / the session repository
is not under the source snapshot; spec §4.3 says `Create` inserts a new row,
fails with `Conflict` on id collision, and the persistence layer stamps
`created_at`/`updated_at` at insertion time. -/
def sessionCreate (now : Nat) (s : Session) (store : List Session) :
    Except String (List Session) :=
  if store.any (fun t => t.id = s.id) then .error "Conflict"
  else .ok (store ++ [{ s with createdAt := now, updatedAt := now }])

/-- Modelled from the spec: `SessionService.Delete` / the session repository
is not under the source snapshot; spec §4.3 says `Delete(id)` is idempotent
and deleting a non-existent id is not an error. -/
def sessionDelete (id : String) (store : List Session) :
    Except String (List Session) :=
  .ok (store.filter (fun s => s.id ≠ id))

/-- The session record assembled by the `Login` handler
(auth_controller.go:44-49): it sets `Id`, `UserId`, `UserAgent`, `IpAddress`
and `ExpiresAt = now + config.Session.Expire`; the remaining fields keep the
zero value of `new(models.Session)`. -/
def mkLoginSession (resp : LoginResponse) (ua ip : String) (now expire : Nat) :
    Session :=
  { id := resp.sessionId
    userId := resp.userId
    userAgent := ua
    ipAddress := ip
    expiresAt := now + expire
    createdAt := 0
    updatedAt := 0 }

/-- The `Login` handler (auth_controller.go:28-60).  `body` is the result of
`ctx.BodyParser` (`none` = parse error → 400); `authLogin` is
`AuthService.Login` (credential verification, opaque here; per spec §4.4 it
touches no session state); `create` is `SessionService.Create`.  Returns the
response together with the session store after the request. -/
def LoginHandler (authLogin : LoginRequest → Except String LoginResponse)
    (create : Session → List Session → Except String (List Session))
    (expire now : Nat) (ua ip : String)
    (body : Option LoginRequest) (store : List Session) :
    HttpResponse × List Session :=
  match body with
  | none => (⟨400, .errorMsg "Invalid request"⟩, store)
  | some req =>
    match authLogin req with
    | .error _ => (⟨401, .errorMsg "Invalid credentials"⟩, store)
    | .ok resp =>
      match create (mkLoginSession resp ua ip now expire) store with
      | .error _ => (⟨500, .errorMsg "Internal server error"⟩, store)
      | .ok store' =>
        (⟨200, .loginResp resp.userId resp.sessionId resp.token⟩, store')

/-- The `Logout` handler (auth_controller.go:71-87): deletes the session by
id (from the JWT locals) and reports 200 on success, 500 if the delete
errs. -/
def LogoutHandler (sessionId : String) (store : List Session) :
    HttpResponse × List Session :=
  match sessionDelete sessionId store with
  | .error _ => (⟨500, .errorMsg "Internal server error"⟩, store)
  | .ok store' => (⟨200, .message "Logged out successfully"⟩, store')

/-- The `Register` handler (auth_controller.go:100-117).  `body` is the
result of `ctx.BodyParser` (`none` = parse error → 400); any error from
`AuthService.Register` is mapped to 409 "User already exists". -/
def RegisterHandler (register : RegisterRequest → Except String String)
    (body : Option RegisterRequest) : HttpResponse :=
  match body with
  | none => ⟨400, .errorMsg "Invalid request"⟩
  | some req =>
    match register req with
    | .error _ => ⟨409, .errorMsg "User already exists"⟩
    | .ok _ => ⟨201, .message "User registered successfully"⟩

/-- The `ValidateSession` handler (auth_controller.go:128-165).  The locals
`session_id` and `user_id` attached by the middleware are modelled as
`Option String` (`none` = absent or not a string, mirroring the checked type
assertion `ctx.Locals(...).(string)` with `ok`). -/
def ValidateSession (store : List Session) (now : Nat)
    (sessionIdLocal userIdLocal : Option String) : HttpResponse :=
  match sessionIdLocal with
  | none => ⟨401, .errorMsg "Invalid session"⟩
  | some sessionId =>
    if sessionId = "" then ⟨401, .errorMsg "Invalid session"⟩
    else
      match userIdLocal with
      | none => ⟨401, .errorMsg "Invalid session"⟩
      | some userId =>
        if userId = "" then ⟨401, .errorMsg "Invalid session"⟩
        else
          match sessionGetById store sessionId with
          | none => ⟨404, .errorMsg "Session not found"⟩
          | some session =>
            if session.userId ≠ userId then
              ⟨401, .errorMsg "Invalid session"⟩
            else if IsSessionExpired now session.expiresAt then
              ⟨401, .errorMsg "Session expired"⟩
            else ⟨200, .validTrue⟩

/-! ### Session table migration (20250509083727_session.go) -/

/-- Boolean prefix test on character lists. -/
def isPrefixList : List Char → List Char → Bool
  | [], _ => true
  | _ :: _, [] => false
  | a :: as, b :: bs => a = b && isPrefixList as bs

/-- `containsSub pat s` holds iff `pat` occurs contiguously in `s`. -/
def containsSub (pat : List Char) : List Char → Bool
  | [] => isPrefixList pat []
  | c :: rest => isPrefixList pat (c :: rest) || containsSub pat rest

/-- Substring test on strings. -/
def containsSubstr (s pat : String) : Bool :=
  containsSub pat.toList s.toList

/-- The sqlite DDL literal of `upSession`. -/
def sqliteSessionQuery : String :=
  "\n\t\tCREATE TABLE IF NOT EXISTS session (\n\t\t\tid TEXT PRIMARY KEY,\n\t\t\tuser_id TEXT NOT NULL,\n\t\t\tuser_agent TEXT NOT NULL,\n\t\t\tip_address TEXT NOT NULL,\n\t\t\texpires_at datetime NOT NULL,\n\t\t\tcreated_at datetime NOT NULL,\n\t\t\tupdated_at datetime NOT NULL,\n\t\t\tFOREIGN KEY (user_id) REFERENCES user(id) ON DELETE CASCADE\n\t\t);\n\t\tCREATE INDEX IF NOT EXISTS idx_session_user_id ON session (user_id);\n\t\t"

/-- The postgres DDL literal of `upSession`. -/
def postgresSessionQuery : String :=
  "\n\t\tCREATE TABLE IF NOT EXISTS session (\n\t\t\tid uuid PRIMARY KEY,\n\t\t\tuser_id uuid NOT NULL,\n\t\t\tuser_agent varchar NOT NULL,\n\t\t\tip_address varchar NOT NULL,\n\t\t\texpires_at timestamp NOT NULL,\n\t\t\tcreated_at timestamp NOT NULL,\n\t\t\tupdated_at timestamp NOT NULL,\n\t\t\tFOREIGN KEY (user_id) REFERENCES user(id) ON DELETE CASCADE\n\t\t);\n\t\tCREATE INDEX IF NOT EXISTS idx_session_user_id ON session (user_id);\n\t\t"

/-- `upSession` (20250509083727_session.go:16-55): picks the DDL for the
configured dialect; on success the returned string is the query executed
against the transaction, otherwise the error message. -/
def upSession (dialect : String) : Except String String :=
  match dialect with
  | "sqlite" => .ok sqliteSessionQuery
  | "postgres" => .ok postgresSessionQuery
  | "mysql" => .error "mysql dialect is not supported yet"
  | d => .error ("unsupported dialect: " ++ d)

/-- The foreign-key clause shared by both supported dialects. -/
def fkCascadeClause : String :=
  "FOREIGN KEY (user_id) REFERENCES user(id) ON DELETE CASCADE"

/-- Modelled from the spec: the relational effect of `ON DELETE CASCADE`
(the database engine is outside the repository).  Deleting user `uid`
removes the user row and every session row whose `user_id` is `uid`. -/
def deleteUserCascade (uid : String) (users : List String)
    (sessions : List Session) : List String × List Session :=
  (users.filter (fun v => v ≠ uid), sessions.filter (fun s => s.userId ≠ uid))

/-- Referential integrity of the session table: every session's `user_id`
is the id of a persisted user. -/
def refIntegrity (users : List String) (sessions : List Session) : Prop :=
  ∀ s ∈ sessions, s.userId ∈ users

/-! ### User repository (repository/user_repository.go) -/

/-- A row of the `user` table with all its columns. -/
structure UserRow where
  id : String
  name : String
  email : String
  avatarUrl : String
  password : String
  active : Bool
  preferences : String
  createdAt : Nat
  updatedAt : Nat
  deriving DecidableEq, Repr

/-- The `models.User` struct as scanned by gorm: columns absent from the
SELECT list keep their Go zero value. -/
structure User where
  id : String
  name : String
  email : String
  avatarUrl : String
  password : String
  active : Bool
  createdAt : Nat
  updatedAt : Nat
  deriving DecidableEq, Repr

/-- The projection `Select("id, name, email, avatar_url, created_at,
updated_at")` used by `userRepository.GetById`: the remaining columns scan
as zero values. -/
def selectPublicFull (r : UserRow) : User :=
  { id := r.id
    name := r.name
    email := r.email
    avatarUrl := r.avatarUrl
    password := ""
    active := false
    createdAt := r.createdAt
    updatedAt := r.updatedAt }

/-- The projection `Select("id, name, email, avatar_url")` used by
`userRepository.GetAllUsers`: the remaining columns scan as zero values. -/
def selectPublicShort (r : UserRow) : User :=
  { id := r.id
    name := r.name
    email := r.email
    avatarUrl := r.avatarUrl
    password := ""
    active := false
    createdAt := 0
    updatedAt := 0 }

/-- `userRepository.GetById` (user repository, lines 57-61):
`Select("id, name, email, avatar_url, created_at, updated_at")
 .Where("id = ?", id).First(&user)`. -/
def GetById (db : List UserRow) (id : String) : Option User :=
  (db.find? (fun r => r.id = id)).map selectPublicFull

/-- `userRepository.GetAllUsers` (user repository, lines 102-106):
`Select("id, name, email, avatar_url").Where("active = true")
 .Find(&users)`. -/
def GetAllUsers (db : List UserRow) : List User :=
  (db.filter (fun r => r.active)).map selectPublicShort

/-! ### Auxiliary definitions for the statements and concrete instances -/

/-- Sessions that agree on every column `ValidateSession` may consult,
i.e. that differ at most in `user_agent` and `ip_address`. -/
def auditEquiv (s t : Session) : Prop :=
  s.id = t.id ∧ s.userId = t.userId ∧ s.expiresAt = t.expiresAt ∧
    s.createdAt = t.createdAt ∧ s.updatedAt = t.updatedAt

/-- Modelled from the spec: `Credential Store.CreateUser` (behind
`AuthService.Register`) is not under the source snapshot; spec §4.1/§4.4 say
it fails on malformed fields (empty email) and with `Conflict` on a
duplicate identifier. -/
def specCreateUser (existing : List String) (req : RegisterRequest) :
    Except String String :=
  if req.email = "" then .error "InvalidInput"
  else if req.email ∈ existing then .error "Conflict"
  else .ok req.email

/-- A concrete stored session used by the concrete instances below. -/
def demoSession : Session :=
  { id := "sid1"
    userId := "u1"
    userAgent := "Mozilla"
    ipAddress := "10.0.0.1"
    expiresAt := 100
    createdAt := 40
    updatedAt := 40 }

/-- A one-session store. -/
def demoStore : List Session := [demoSession]

/-- `demoSession` with different audit columns only. -/
def demoSessionAlt : Session :=
  { demoSession with userAgent := "curl", ipAddress := "192.168.0.9" }

/-- The store of `demoSessionAlt`. -/
def demoStoreAlt : List Session := [demoSessionAlt]

/-- A credential service accepting every request. -/
def demoAuthLogin (_ : LoginRequest) : Except String LoginResponse :=
  .ok { userId := "u1", sessionId := "sid9", token := "tok9" }

/-- A credential service rejecting every request. -/
def demoAuthFail (_ : LoginRequest) : Except String LoginResponse :=
  .error "invalid credentials"

/-- A stored session whose id collides with the one `demoAuthLogin`
generates, so that `sessionCreate` fails. -/
def demoSession9 : Session :=
  { id := "sid9"
    userId := "u1"
    userAgent := "x"
    ipAddress := "y"
    expiresAt := 10
    createdAt := 1
    updatedAt := 1 }

/-- The store of `demoSession9`. -/
def demoStore9 : List Session := [demoSession9]

/-- The session inserted by a successful demo login at `now = 50`,
`expire = 60`. -/
def demoCreatedSession : Session :=
  { id := "sid9"
    userId := "u1"
    userAgent := "ua"
    ipAddress := "ip"
    expiresAt := 110
    createdAt := 50
    updatedAt := 50 }

/-- A concrete user row. -/
def demoUserRow : UserRow :=
  { id := "u1"
    name := "Alice"
    email := "a@b"
    avatarUrl := "av"
    password := "hash"
    active := true
    preferences := "{}"
    createdAt := 1
    updatedAt := 2 }

/-- A one-row user table. -/
def demoUserDb : List UserRow := [demoUserRow]

/-! ### Theorems -/

/-- C1: For every validate-session request carrying a session id and a
claimed user id, `ValidateSession` checks in order: an unresolved session id
fails with 404 Not Found; a stored session owned by a different user fails
with 401; an expired session (`now >= expires_at`) fails with 401 Session
expired; only when all three checks pass does it return 200 `{valid:true}`.
In particular an expired-but-persisted session never yields 200. -/
theorem validateSession_check_order
    (store : List Session) (now : Nat) (sid uid : String)
    (hsid : sid ≠ "") (huid : uid ≠ "") :
    (sessionGetById store sid = none →
      ValidateSession store now (some sid) (some uid) =
        ⟨404, .errorMsg "Session not found"⟩) ∧
    (∀ s, sessionGetById store sid = some s → s.userId ≠ uid →
      ValidateSession store now (some sid) (some uid) =
        ⟨401, .errorMsg "Invalid session"⟩) ∧
    (∀ s, sessionGetById store sid = some s → s.userId = uid →
      s.expiresAt ≤ now →
      ValidateSession store now (some sid) (some uid) =
        ⟨401, .errorMsg "Session expired"⟩) ∧
    (∀ s, sessionGetById store sid = some s → s.userId = uid →
      now < s.expiresAt →
      ValidateSession store now (some sid) (some uid) = ⟨200, .validTrue⟩) ∧
    (∀ s, sessionGetById store sid = some s → s.expiresAt ≤ now →
      (ValidateSession store now (some sid) (some uid)).status ≠ 200) := by
  refine ⟨?_, ?_, ?_, ?_, ?_⟩
  · intro hnone
    simp [ValidateSession, hsid, huid, hnone]
  · intro s hs hne
    simp [ValidateSession, hsid, huid, hs, hne]
  · intro s hs hequser hexp
    simp [ValidateSession, hsid, huid, hs, hequser, IsSessionExpired, hexp]
  · intro s hs hequser hlive
    simp [ValidateSession, hsid, huid, hs, hequser, IsSessionExpired,
      Nat.not_le_of_lt hlive]
  · intro s hs hexp
    by_cases hequser : s.userId = uid
    · simp [ValidateSession, hsid, huid, hs, hequser, IsSessionExpired, hexp]
    · simp [ValidateSession, hsid, huid, hs, hequser]

/-- C1 witness: with the concrete store `demoStore` at time 200 the stored
session is expired and validation answers 401 Session expired. -/
theorem validateSession_check_order_witness :
    ValidateSession demoStore 200 (some "sid1") (some "u1") =
      ⟨401, .errorMsg "Session expired"⟩ :=
  (validateSession_check_order demoStore 200 "sid1" "u1" (by decide)
    (by decide)).2.2.1 demoSession (by rfl) rfl (by decide)

/-- C9: when the middleware did not attach a (non-empty, string-typed)
`session_id` or `user_id` local, `ValidateSession` answers 401 Invalid
session; the branch is total, never a panic. -/
theorem validateSession_missing_locals
    (store : List Session) (now : Nat) (sidL uidL : Option String)
    (h : sidL = none ∨ sidL = some "" ∨ uidL = none ∨ uidL = some "") :
    ValidateSession store now sidL uidL = ⟨401, .errorMsg "Invalid session"⟩ := by
  rcases h with h | h | h | h
  · subst h; rfl
  · subst h; rfl
  · subst h
    cases sidL with
    | none => rfl
    | some sid =>
      by_cases hsid : sid = "" <;> simp [ValidateSession, hsid]
  · subst h
    cases sidL with
    | none => rfl
    | some sid =>
      by_cases hsid : sid = "" <;> simp [ValidateSession, hsid]

/-- C9 witness: both locals missing on a concrete store. -/
theorem validateSession_missing_locals_witness :
    ValidateSession demoStore 50 none none = ⟨401, .errorMsg "Invalid session"⟩ :=
  validateSession_missing_locals demoStore 50 none none (Or.inl rfl)

/-- C2: when credential verification fails, the login handler answers 401
Invalid credentials and the session store is returned unchanged; the result
does not depend on the `create` collaborator at all, i.e.
`SessionService.Create` is never consulted. -/
theorem login_auth_failure_no_session
    (authLogin : LoginRequest → Except String LoginResponse)
    (create : Session → List Session → Except String (List Session))
    (expire now : Nat) (ua ip : String) (req : LoginRequest)
    (store : List Session) (e : String) (hfail : authLogin req = .error e) :
    LoginHandler authLogin create expire now ua ip (some req) store =
      (⟨401, .errorMsg "Invalid credentials"⟩, store) := by
  simp [LoginHandler, hfail]

/-- C2 witness: a failing credential service at a concrete store. -/
theorem login_auth_failure_no_session_witness :
    LoginHandler demoAuthFail (sessionCreate 50) 60 50 "ua" "1.2.3.4"
      (some ⟨"a@b", "pw"⟩) demoStore =
      (⟨401, .errorMsg "Invalid credentials"⟩, demoStore) :=
  login_auth_failure_no_session demoAuthFail (sessionCreate 50) 60 50 "ua"
    "1.2.3.4" ⟨"a@b", "pw"⟩ demoStore "invalid credentials" rfl

/-- C3: when credential verification succeeds but session creation fails,
the whole login fails with 500 Internal server error, the store is
unchanged, and the response body is the error object — in particular no
token reaches the caller. -/
theorem login_create_failure_500
    (authLogin : LoginRequest → Except String LoginResponse)
    (create : Session → List Session → Except String (List Session))
    (expire now : Nat) (ua ip : String) (req : LoginRequest)
    (store : List Session) (resp : LoginResponse) (e : String)
    (hok : authLogin req = .ok resp)
    (hfail : create (mkLoginSession resp ua ip now expire) store = .error e) :
    LoginHandler authLogin create expire now ua ip (some req) store =
      (⟨500, .errorMsg "Internal server error"⟩, store) := by
  simp [LoginHandler, hok, hfail]

/-- C3 witness: the generated session id collides with a stored one, so the
modelled `Create` fails and login answers 500 without a token. -/
theorem login_create_failure_500_witness :
    LoginHandler demoAuthLogin (sessionCreate 50) 60 50 "ua" "ip"
      (some ⟨"a@b", "pw"⟩) demoStore9 =
      (⟨500, .errorMsg "Internal server error"⟩, demoStore9) :=
  login_create_failure_500 demoAuthLogin (sessionCreate 50) 60 50 "ua" "ip"
    ⟨"a@b", "pw"⟩ demoStore9 ⟨"u1", "sid9", "tok9"⟩ "Conflict" rfl rfl

/-- C4: every session inserted by the login handler (with the store's
`Create` stamping `created_at` at insertion time) satisfies
`expires_at = created_at + expire`; no session enters the store with any
other expiry. -/
theorem login_session_expiry_ttl
    (authLogin : LoginRequest → Except String LoginResponse)
    (expire now : Nat) (ua ip : String) (body : Option LoginRequest)
    (store : List Session) (s : Session)
    (hs : s ∈ (LoginHandler authLogin (sessionCreate now) expire now ua ip
      body store).2)
    (hnew : s ∉ store) :
    s.expiresAt = s.createdAt + expire := by
  cases body with
  | none =>
    simp only [LoginHandler] at hs
    exact absurd hs hnew
  | some req =>
    cases hl : authLogin req with
    | error e =>
      simp only [LoginHandler, hl] at hs
      exact absurd hs hnew
    | ok resp =>
      by_cases hc :
          store.any (fun t => t.id = (mkLoginSession resp ua ip now expire).id)
      · simp only [LoginHandler, hl, sessionCreate, if_pos hc] at hs
        exact absurd hs hnew
      · simp only [LoginHandler, hl, sessionCreate, if_neg hc,
          List.mem_append, List.mem_singleton] at hs
        rcases hs with hs | hs
        · exact absurd hs hnew
        · subst hs
          simp [mkLoginSession]

/-- C4 witness: the session inserted by a successful demo login at time 50
with TTL 60. -/
theorem login_session_expiry_ttl_witness :
    demoCreatedSession.expiresAt = demoCreatedSession.createdAt + 60 :=
  login_session_expiry_ttl demoAuthLogin 60 50 "ua" "ip"
    (some ⟨"a@b", "pw"⟩) [] demoCreatedSession (by decide) (by decide)

set_option maxRecDepth 100000 in
/-- C5: every dialect for which `upSession` produces a query declares
`FOREIGN KEY (user_id) REFERENCES user(id) ON DELETE CASCADE` on the
session table, and under the modelled cascade semantics deleting a user
preserves referential integrity, so no persisted session references a
non-existent user. -/
theorem session_migration_cascade
    (d q : String) (hq : upSession d = .ok q)
    (uid : String) (users : List String) (sessions : List Session)
    (hri : refIntegrity users sessions) :
    containsSubstr q fkCascadeClause = true ∧
    refIntegrity (deleteUserCascade uid users sessions).1
      (deleteUserCascade uid users sessions).2 := by
  constructor
  · unfold upSession at hq
    split at hq
    · cases hq; rfl
    · cases hq; rfl
    · cases hq
    · cases hq
  · intro s hs
    simp only [deleteUserCascade, List.mem_filter, decide_eq_true_eq] at hs ⊢
    exact ⟨hri s hs.1, hs.2⟩

/-- C5 witness: the sqlite query contains the cascade clause, and cascading
the deletion of user `u2` keeps the demo store referentially intact. -/
theorem session_migration_cascade_witness :
    containsSubstr sqliteSessionQuery fkCascadeClause = true ∧
    refIntegrity (deleteUserCascade "u2" ["u1", "u2"] demoStore).1
      (deleteUserCascade "u2" ["u1", "u2"] demoStore).2 :=
  session_migration_cascade "sqlite" sqliteSessionQuery rfl "u2" ["u1", "u2"]
    demoStore (by intro s hs; fin_cases hs; decide)

/-- C6: the logout handler is idempotent: every call answers 200 Logged out
successfully, and running it a second time on the resulting store yields
the identical outcome — deleting an already-deleted or never-existing
session id is not an error. -/
theorem logout_idempotent (sessionId : String) (store : List Session) :
    (LogoutHandler sessionId store).1 =
      ⟨200, .message "Logged out successfully"⟩ ∧
    LogoutHandler sessionId (LogoutHandler sessionId store).2 =
      LogoutHandler sessionId store := by
  constructor
  · rfl
  · simp [LogoutHandler, sessionDelete, List.filter_filter]

/-- C7 counterexample: a syntactically well-formed registration with an
empty email (a malformed field) is answered 409 User already exists, not
400 InvalidInput: the handler maps every `AuthService.Register` error to
409. -/
theorem register_empty_email_conflict :
    (RegisterHandler (specCreateUser []) (some ⟨"", "u", "pw"⟩)).status = 409 ∧
    (RegisterHandler (specCreateUser []) (some ⟨"", "u", "pw"⟩)).status ≠ 400 :=
  ⟨rfl, by decide⟩

/-- C7 amended: the handler answers 400 only when the request body fails to
parse; every error from `AuthService.Register` — duplicate identifier or
malformed fields alike — is reported as 409 User already exists, and a
successful registration as 201. -/
theorem register_error_collapses_to_conflict
    (register : RegisterRequest → Except String String)
    (body : Option RegisterRequest) :
    (body = none →
      RegisterHandler register body = ⟨400, .errorMsg "Invalid request"⟩) ∧
    (∀ req e, body = some req → register req = .error e →
      RegisterHandler register body =
        ⟨409, .errorMsg "User already exists"⟩) ∧
    (∀ req uid, body = some req → register req = .ok uid →
      RegisterHandler register body =
        ⟨201, .message "User registered successfully"⟩) := by
  refine ⟨?_, ?_, ?_⟩
  · intro h; subst h; rfl
  · intro req e hb hr; subst hb; simp [RegisterHandler, hr]
  · intro req uid hb hr; subst hb; simp [RegisterHandler, hr]

/-- C7 amended witness: a duplicate identifier is answered 409. -/
theorem register_error_collapses_to_conflict_witness :
    RegisterHandler (specCreateUser ["a@b"]) (some ⟨"a@b", "u", "pw"⟩) =
      ⟨409, .errorMsg "User already exists"⟩ :=
  (register_error_collapses_to_conflict (specCreateUser ["a@b"])
    (some ⟨"a@b", "u", "pw"⟩)).2.1 ⟨"a@b", "u", "pw"⟩ "Conflict" rfl rfl

/-- Looking up the same id in two stores related pointwise by `auditEquiv`
either misses in both or hits related sessions. -/
theorem sessionGetById_auditEquiv (sid : String) :
    ∀ {l₁ l₂ : List Session}, List.Forall₂ auditEquiv l₁ l₂ →
      (sessionGetById l₁ sid = none ∧ sessionGetById l₂ sid = none) ∨
      ∃ s t, sessionGetById l₁ sid = some s ∧ sessionGetById l₂ sid = some t ∧
        auditEquiv s t := by
  intro l₁ l₂ h
  induction h with
  | nil => exact Or.inl ⟨rfl, rfl⟩
  | @cons a b l₁ l₂ hab _ ih =>
    by_cases hid : a.id = sid
    · refine Or.inr ⟨a, b, ?_, ?_, hab⟩
      · simp [sessionGetById, List.find?_cons, hid]
      · have hbid : b.id = sid := hab.1 ▸ hid
        simp [sessionGetById, List.find?_cons, hbid]
    · have hbid : ¬ b.id = sid := fun hb => hid (hab.1 ▸ hb)
      have e₁ : sessionGetById (a :: l₁) sid = sessionGetById l₁ sid := by
        simp [sessionGetById, List.find?_cons, hid]
      have e₂ : sessionGetById (b :: l₂) sid = sessionGetById l₂ sid := by
        simp [sessionGetById, List.find?_cons, hbid]
      rw [e₁, e₂]
      exact ih

/-- C8: the audit columns never influence validation: two validate-session
runs over stores whose sessions agree on everything except `user_agent` and
`ip_address` produce the same response (two-run noninterference). -/
theorem validateSession_audit_noninterference
    (store₁ store₂ : List Session)
    (h : List.Forall₂ auditEquiv store₁ store₂) (now : Nat)
    (sidL uidL : Option String) :
    ValidateSession store₁ now sidL uidL =
      ValidateSession store₂ now sidL uidL := by
  cases sidL with
  | none => rfl
  | some sid =>
    by_cases hsid : sid = ""
    · simp [ValidateSession, hsid]
    cases uidL with
    | none => simp [ValidateSession, hsid]
    | some uid =>
      by_cases huid : uid = ""
      · simp [ValidateSession, hsid, huid]
      rcases sessionGetById_auditEquiv sid h with ⟨h₁, h₂⟩ |
        ⟨s, t, h₁, h₂, _, hu, he, _⟩
      · simp [ValidateSession, hsid, huid, h₁, h₂]
      · simp only [ValidateSession, hsid, huid, h₁, h₂, if_neg, IsSessionExpired]
        rw [hu, he]

/-- C8 witness: the demo store and its audit-rewritten copy validate
identically. -/
theorem validateSession_audit_noninterference_witness :
    ValidateSession demoStore 50 (some "sid1") (some "u1") =
      ValidateSession demoStoreAlt 50 (some "sid1") (some "u1") :=
  validateSession_audit_noninterference demoStore demoStoreAlt
    (List.Forall₂.cons ⟨rfl, rfl, rfl, rfl, rfl⟩ List.Forall₂.nil) 50
    (some "sid1") (some "u1")

/-- C10: `userRepository.GetById` returns only the selected public columns
— the password hash is never populated (and neither is `active`) — and
every user returned by `userRepository.GetAllUsers` is the public
projection of a row with `active = true`, likewise without the password
hash. -/
theorem userRepository_projections (db : List UserRow) :
    (∀ id u, GetById db id = some u →
      u.password = "" ∧ u.active = false ∧
      ∃ r, db.find? (fun x => x.id = id) = some r ∧ u = selectPublicFull r) ∧
    (∀ u, u ∈ GetAllUsers db →
      u.password = "" ∧
      ∃ r, r ∈ db ∧ r.active = true ∧ u = selectPublicShort r) := by
  constructor
  · intro id u hu
    simp only [GetById, Option.map_eq_some'] at hu
    rcases hu with ⟨r, hr, hru⟩
    exact ⟨hru ▸ rfl, hru ▸ rfl, r, hr, hru.symm⟩
  · intro u hu
    simp only [GetAllUsers, List.mem_map, List.mem_filter] at hu
    rcases hu with ⟨r, ⟨hmem, hact⟩, hru⟩
    exact ⟨hru ▸ rfl, r, hmem, hact, hru.symm⟩

/-- C10 witness: the user returned for id `u1` from the demo table carries
no password hash. -/
theorem userRepository_projections_witness :
    (selectPublicFull demoUserRow).password = "" :=
  ((userRepository_projections demoUserDb).1 "u1"
    (selectPublicFull demoUserRow) rfl).1

end Zotion
